import Mathlib

/-
Verification of the StaffRouteOptimization repository.

The repository holds two independent Python scripts:
  * src/main.py  — builds a synthetic capacitated vehicle-routing problem
    (staff pickup in Mauritius) and hands it to an external routing solver;
  * src/main2.py — builds a staff-shift scheduling problem and hands it to
    an external CP-SAT solver.

This file shallowly embeds the data-construction and constraint-formulation
code of both scripts and proves properties about it.  The external solvers
themselves are opaque libraries and are modelled only through their result
(an optional solution).  Python's Mersenne-Twister generator is modelled as
an abstract family of generators indexed by the seed: `random.seed(n)`
replaces the current generator state by a fresh state of the generator
`family n` at position 0, and each draw consumes one position.
-/

/-! ## Embedding of src/main2.py (`StaffScheduler`) -/

/-- The five shift labels, the keys of the dict `self.shifts` built in
`StaffScheduler.__init__`. -/
inductive Shift
  | A
  | B
  | C
  | D
  | OFF
deriving DecidableEq, Repr

/-- A shift time window, the 4-tuple
`(start_hour, start_minute, end_hour, end_minute)` stored in `self.shifts`. -/
structure ShiftWindow where
  startHour : Int
  startMin : Int
  endHour : Int
  endMin : Int
deriving DecidableEq, Repr

/-- Iteration order of the dict `self.shifts` (Python dicts iterate in
insertion order): A, B, C, D, OFF. -/
def shiftOrder : List Shift := [Shift.A, Shift.B, Shift.C, Shift.D, Shift.OFF]

/-- The dict `self.shifts` of `StaffScheduler.__init__`:
A: 08:00-15:30, B: 13:00-21:00, C: 14:30-22:00, D: 16:00-23:30,
OFF: (-1,-1,-1,-1). -/
def shifts : Shift → ShiftWindow
  | Shift.A => ⟨8, 0, 15, 30⟩
  | Shift.B => ⟨13, 0, 21, 0⟩
  | Shift.C => ⟨14, 30, 22, 0⟩
  | Shift.D => ⟨16, 0, 23, 30⟩
  | Shift.OFF => ⟨-1, -1, -1, -1⟩

/-- The dict `self.desired_staff_per_shift` of `StaffScheduler.__init__`. -/
def desired_staff_per_shift : List (Shift × Int) :=
  [(Shift.A, 10), (Shift.B, 8), (Shift.C, 9), (Shift.D, 5)]

/-- The keys `(s, d, shift)` of `self.vars` created by
`StaffScheduler.create_variables`, in loop order
(`for s in range(num_staff): for d in range(num_days): for shift in self.shifts`). -/
def create_variables (num_staff num_days : ℕ) : List (ℕ × ℕ × Shift) :=
  (List.range num_staff).flatMap fun s =>
    (List.range num_days).flatMap fun d =>
      shiftOrder.map fun shift => (s, d, shift)

/-- `self.shifts[shift][2] * 60 + self.shifts[shift][3]`:
the end of a shift in minutes. -/
def endTimeMin (sh : Shift) : Int := (shifts sh).endHour * 60 + (shifts sh).endMin

/-- `self.shifts[shift][0] * 60 + self.shifts[shift][1]`:
the start of a shift in minutes. -/
def startTimeMin (sh : Shift) : Int := (shifts sh).startHour * 60 + (shifts sh).startMin

/-- `(start_time2 - end_time1 + 24 * 60) % (24 * 60)` from constraint (c) of
`StaffScheduler.add_constraints`.  For a positive modulus, Python `%` and
`Int.emod` agree (both return a result in `[0, 24*60)`). -/
def restGap (sh1 sh2 : Shift) : Int :=
  (startTimeMin sh2 - endTimeMin sh1 + 24 * 60) % (24 * 60)

/-- The rest-time constraints added by part (c) of
`StaffScheduler.add_constraints`.  An element `((s, d, sh1), (s, d + 1, sh2))`
records the constraint
`self.model.Add(self.vars[(s, d, sh1)] + self.vars[(s, d + 1, sh2)] <= 1)`,
added exactly when both shifts differ from OFF and the computed gap is below
11 hours. -/
def rest_constraints (num_staff num_days : ℕ) :
    List ((ℕ × ℕ × Shift) × (ℕ × ℕ × Shift)) :=
  (List.range num_staff).flatMap fun s =>
    (List.range (num_days - 1)).flatMap fun d =>
      shiftOrder.flatMap fun sh1 =>
        shiftOrder.flatMap fun sh2 =>
          if sh1 ≠ Shift.OFF ∧ sh2 ≠ Shift.OFF ∧ restGap sh1 sh2 < 11 * 60 then
            [((s, d, sh1), (s, d + 1, sh2))]
          else []

/-- The daily coverage constraints added at the end of
`StaffScheduler.add_constraints`.  An element `(d, sh)` records the constraint
`self.model.Add(sum(self.vars[(s, d, sh)] for s in range(self.num_staff)) >= 1)`. -/
def coverage_constraints (num_days : ℕ) : List (ℕ × Shift) :=
  (List.range num_days).flatMap fun d =>
    shiftOrder.flatMap fun sh =>
      if sh ≠ Shift.OFF then [(d, sh)] else []

/-- Satisfaction of a coverage constraint `(d, sh)` by a Boolean assignment
`x` to the decision variables: the sum of the 0/1 variables
`vars[(s, d, sh)]` over `s in range(num_staff)` is at least 1. -/
def coverage_sat (num_staff : ℕ) (x : ℕ → ℕ → Shift → Bool) (c : ℕ × Shift) : Prop :=
  1 ≤ ((List.range num_staff).map fun s => if x s c.1 c.2 then (1 : Int) else 0).sum

/-! ## Console behaviour of the two `main` functions -/

/-- One console print action of a script run. -/
inductive ConsoleEvent
  | dataPrinted
  | solutionPrinted
  | feasibleFoundMsg
  | schedulePrinted
  | noFeasibleScheduleMsg
deriving DecidableEq, Repr

/-- The console output of `main` in src/main.py as a function of the solver
result: `print_data(data)` always runs, then `print_solution(...)` runs only
under `if solution:`; there is no else branch. -/
def vrp_main (solution : Option Unit) : List ConsoleEvent :=
  [ConsoleEvent.dataPrinted] ++
    match solution with
    | some _ => [ConsoleEvent.solutionPrinted]
    | none => []

/-- The console output of `main` in src/main2.py as a function of the
schedule returned by `StaffScheduler.solve`: on a schedule it prints
"Feasible schedule found:" and the schedule; otherwise it prints
"No feasible schedule found.". -/
def scheduler_main (schedule : Option Unit) : List ConsoleEvent :=
  match schedule with
  | some _ => [ConsoleEvent.feasibleFoundMsg, ConsoleEvent.schedulePrinted]
  | none => [ConsoleEvent.noFeasibleScheduleMsg]

/-- `StaffScheduler.solve` returns the pair `(None, None)` when the CP-SAT
status is neither OPTIMAL nor FEASIBLE, and a schedule otherwise; modelled on
the status alone. -/
def scheduler_solve (feasible : Bool) : Option Unit :=
  if feasible then some () else none

/-! ## Embedding of src/main.py (vehicle routing data model) -/

/-- An abstract pseudo-random generator (one seeded stream of Python's
`random` module): the value of the n-th draw, for `uniform(lo, hi)` and
`randint(lo, hi)` calls respectively. -/
structure PRNG where
  uniform : ℕ → ℝ → ℝ → ℝ
  randint : ℕ → ℤ → ℤ → ℤ

/-- The state of the module-level generator: which seeded stream is active
and how many draws have been consumed. -/
structure RNGState where
  gen : PRNG
  pos : ℕ

/-- `random.seed(n)`: replaces the generator state, discarding whatever
state the module-level generator had before the call. -/
def seedRNG (family : ℕ → PRNG) (n : ℕ) (_st : RNGState) : RNGState :=
  ⟨family n, 0⟩

/-- `random.uniform(lo, hi)`: one draw, advancing the stream position. -/
def randUniform (lo hi : ℝ) (st : RNGState) : ℝ × RNGState :=
  (st.gen.uniform st.pos lo hi, ⟨st.gen, st.pos + 1⟩)

/-- `random.randint(lo, hi)`: one draw, advancing the stream position. -/
def randIntDraw (lo hi : ℤ) (st : RNGState) : ℤ × RNGState :=
  (st.gen.randint st.pos lo hi, ⟨st.gen, st.pos + 1⟩)

/-- One `(random.uniform(-20.5, -20.0), random.uniform(57.3, 57.8))` pair,
as drawn for staff locations and vehicle starting points. -/
def drawPoint (st : RNGState) : (ℝ × ℝ) × RNGState :=
  let r1 := randUniform (-20.5) (-20.0) st
  let r2 := randUniform 57.3 57.8 r1.2
  ((r1.1, r2.1), r2.2)

/-- A list comprehension `[(uniform .., uniform ..) for _ in range(n)]`. -/
def drawPoints : ℕ → RNGState → List (ℝ × ℝ) × RNGState
  | 0, st => ([], st)
  | n + 1, st =>
    let pr := drawPoint st
    let rest := drawPoints n pr.2
    (pr.1 :: rest.1, rest.2)

/-- The list comprehension `[random.randint(5, 10) for _ in range(n)]`
drawing the vehicle capacities. -/
def drawCaps : ℕ → RNGState → List ℤ × RNGState
  | 0, st => ([], st)
  | n + 1, st =>
    let c := randIntDraw 5 10 st
    let rest := drawCaps n c.2
    (c.1 :: rest.1, rest.2)

/-- `euclidean_distance` from src/main.py:
`int(math.sqrt((p1[0]-p2[0])**2 + (p1[1]-p2[1])**2) * 10000)`.
Python `int()` truncates toward zero; the argument is nonnegative here, so
the truncation is the floor. -/
noncomputable def euclidean_distance (point1 point2 : ℝ × ℝ) : ℤ :=
  ⌊Real.sqrt ((point1.1 - point2.1) ^ 2 + (point1.2 - point2.2) ^ 2) * 10000⌋

/-- `get_distance_matrix` from src/main.py: one row per location, one entry
per location within each row. -/
noncomputable def get_distance_matrix (locations : List (ℝ × ℝ)) : List (List ℤ) :=
  locations.map fun loc1 => locations.map fun loc2 => euclidean_distance loc1 loc2

/-- The depot location `(-20.2430, 57.4924)` (Myt Tower in Ebene). -/
def depot_location : ℝ × ℝ := (-20.2430, 57.4924)

/-- The dict returned by `create_data_model`. -/
structure DataModel where
  distance_matrix : List (List ℤ)
  demands : List ℤ
  vehicle_capacities : List ℤ
  num_vehicles : ℕ
  depot : ℕ
  vehicle_starts : List ℕ
  vehicle_ends : List ℕ
  locations : List (ℝ × ℝ)

/-- `create_data_model` from src/main.py.  `random.seed(3)` is called before
any draw; then 30 staff locations are drawn, the depot is inserted at index
0, 6 vehicle starting points are drawn and appended, the distance matrix is
computed, and 6 vehicle capacities are drawn.  `vehicle_starts` is
`list(range(len(locations) - 6, len(locations)))` and `vehicle_ends` is
`[0] * 6`. -/
noncomputable def create_data_model (family : ℕ → PRNG) (st : RNGState) : DataModel :=
  let num_staff : ℕ := 30
  let st0 := seedRNG family 3 st
  let staffDraw := drawPoints num_staff st0
  let locations1 := depot_location :: staffDraw.1
  let startsDraw := drawPoints 6 staffDraw.2
  let locations := locations1 ++ startsDraw.1
  let distance_matrix := get_distance_matrix locations
  let capsDraw := drawCaps 6 startsDraw.2
  { distance_matrix := distance_matrix
    demands := List.replicate num_staff 1 ++ [0] ++ List.replicate 6 0
    vehicle_capacities := capsDraw.1
    num_vehicles := capsDraw.1.length
    depot := 0
    vehicle_starts := List.range' (locations.length - 6) (locations.length - (locations.length - 6))
    vehicle_ends := List.replicate 6 0
    locations := locations }

/-- A concrete generator family (each draw returns a fixed value), used to
instantiate theorems on explicit inputs. -/
def constFamily : ℕ → PRNG := fun _ => ⟨fun _ _ _ => 0, fun _ _ _ => 7⟩

/-- A concrete initial generator state. -/
def initState : RNGState := ⟨constFamily 0, 0⟩

/-- A concrete list of points for instantiating distance-matrix theorems. -/
def pts2 : List (ℝ × ℝ) := [(0, 0), (1, 2)]

/-! ## Helper lemmas for the scheduler embedding -/

lemma mem_shiftOrder (sh : Shift) : sh ∈ shiftOrder := by
  cases sh <;> simp [shiftOrder]

lemma nodup_shiftOrder : shiftOrder.Nodup := by decide

lemma create_variables_eq_product (num_staff num_days : ℕ) :
    create_variables num_staff num_days =
      List.range num_staff ×ˢ (List.range num_days ×ˢ shiftOrder) := by
  simp [create_variables, SProd.sprod, List.product, List.map_flatMap,
    List.map_map, Function.comp_def]

lemma boolsum_nonneg (l : List ℕ) (p : ℕ → Bool) :
    0 ≤ (l.map fun s => if p s then (1 : Int) else 0).sum := by
  induction l with
  | nil => simp
  | cons a l ih =>
    simp only [List.map_cons, List.sum_cons]
    cases h : p a <;> simp <;> omega

lemma boolsum_ge_one_iff (l : List ℕ) (p : ℕ → Bool) :
    1 ≤ (l.map fun s => if p s then (1 : Int) else 0).sum ↔ ∃ s ∈ l, p s = true := by
  induction l with
  | nil => simp
  | cons a l ih =>
    have hnn := boolsum_nonneg l p
    simp only [List.map_cons, List.sum_cons, List.mem_cons]
    cases h : p a
    · rw [if_neg (by simp [h]), zero_add, ih]
      constructor
      · rintro ⟨s, hs, hps⟩
        exact ⟨s, Or.inr hs, hps⟩
      · rintro ⟨s, hs | hs, hps⟩
        · subst hs; rw [h] at hps; cases hps
        · exact ⟨s, hs, hps⟩
    · rw [if_pos (by simp [h])]
      constructor
      · intro _
        exact ⟨a, Or.inl rfl, h⟩
      · intro _
        omega

/-! ## Helper lemmas for the vehicle-routing embedding -/

lemma drawPoints_fst_length (n : ℕ) (st : RNGState) : (drawPoints n st).1.length = n := by
  induction n generalizing st with
  | zero => simp [drawPoints]
  | succ n ih => simp [drawPoints, ih]

lemma drawCaps_fst_length (n : ℕ) (st : RNGState) : (drawCaps n st).1.length = n := by
  induction n generalizing st with
  | zero => simp [drawCaps]
  | succ n ih => simp [drawCaps, ih]

lemma euclidean_distance_comm (p q : ℝ × ℝ) :
    euclidean_distance p q = euclidean_distance q p := by
  unfold euclidean_distance
  rw [show (p.1 - q.1) ^ 2 = (q.1 - p.1) ^ 2 by ring,
    show (p.2 - q.2) ^ 2 = (q.2 - p.2) ^ 2 by ring]

lemma getD_append_left {α : Type} (l1 l2 : List α) (d : α) (i : ℕ)
    (h : i < l1.length) : (l1 ++ l2).getD i d = l1.getD i d := by
  rw [List.getD_eq_getElem _ _ (by simp; omega), List.getD_eq_getElem _ _ h]
  exact List.getElem_append_left h

lemma getD_out_of_range {α : Type} (l : List α) (d : α) (i : ℕ)
    (h : l.length ≤ i) : l.getD i d = d := by
  simp [List.getD_eq_getElem?_getD, List.getElem?_eq_none h]

lemma gdm_length (locations : List (ℝ × ℝ)) :
    (get_distance_matrix locations).length = locations.length := by
  simp [get_distance_matrix]

lemma gdm_row (locations : List (ℝ × ℝ)) (i : ℕ) (hi : i < locations.length) :
    (get_distance_matrix locations).getD i [] =
      locations.map fun loc2 => euclidean_distance (locations.getD i depot_location) loc2 := by
  unfold get_distance_matrix
  rw [List.getD_eq_getElem _ _ (by simpa using hi), List.getElem_map,
    List.getD_eq_getElem _ _ hi]

lemma gdm_entry (locations : List (ℝ × ℝ)) (i j : ℕ)
    (hi : i < locations.length) (hj : j < locations.length) :
    ((get_distance_matrix locations).getD i []).getD j 0 =
      euclidean_distance (locations.getD i depot_location) (locations.getD j depot_location) := by
  rw [gdm_row locations i hi,
    List.getD_eq_getElem _ _ (by simpa using hj), List.getElem_map,
    List.getD_eq_getElem _ _ hj]

lemma drop_cons_append {α : Type} (a : α) (l1 l2 : List α) (n : ℕ)
    (h : l1.length = n) : (a :: l1 ++ l2).drop (n + 1) = l2 := by
  subst h
  rw [List.cons_append, List.drop_succ_cons, List.drop_left]

lemma cdm_locations (family : ℕ → PRNG) (st : RNGState) :
    (create_data_model family st).locations =
      depot_location :: (drawPoints 30 (seedRNG family 3 st)).1 ++
        (drawPoints 6 (drawPoints 30 (seedRNG family 3 st)).2).1 := rfl

lemma cdm_demands (family : ℕ → PRNG) (st : RNGState) :
    (create_data_model family st).demands =
      List.replicate 30 1 ++ [0] ++ List.replicate 6 0 := rfl

lemma cdm_matrix (family : ℕ → PRNG) (st : RNGState) :
    (create_data_model family st).distance_matrix =
      get_distance_matrix (create_data_model family st).locations := rfl

lemma cdm_caps (family : ℕ → PRNG) (st : RNGState) :
    (create_data_model family st).vehicle_capacities =
      (drawCaps 6 (drawPoints 6 (drawPoints 30 (seedRNG family 3 st)).2).2).1 := rfl

lemma cdm_num_vehicles (family : ℕ → PRNG) (st : RNGState) :
    (create_data_model family st).num_vehicles =
      (drawCaps 6 (drawPoints 6 (drawPoints 30 (seedRNG family 3 st)).2).2).1.length := rfl

lemma cdm_locations_length (family : ℕ → PRNG) (st : RNGState) :
    (create_data_model family st).locations.length = 37 := by
  rw [cdm_locations]
  simp [drawPoints_fst_length]

lemma cdm_vehicle_starts (family : ℕ → PRNG) (st : RNGState) :
    (create_data_model family st).vehicle_starts = [31, 32, 33, 34, 35, 36] := by
  have h : (create_data_model family st).vehicle_starts =
      List.range' ((create_data_model family st).locations.length - 6)
        ((create_data_model family st).locations.length -
          ((create_data_model family st).locations.length - 6)) := rfl
  rw [h, cdm_locations_length]
  decide

lemma gdm_entry_zero_left (pts : List (ℝ × ℝ)) (i j : ℕ)
    (hi : pts.length ≤ i) :
    ((get_distance_matrix pts).getD i []).getD j 0 = 0 := by
  rw [getD_out_of_range (get_distance_matrix pts) [] i (by rw [gdm_length]; omega)]
  simp

lemma gdm_entry_zero_right (pts : List (ℝ × ℝ)) (i j : ℕ)
    (hj : pts.length ≤ j) :
    ((get_distance_matrix pts).getD i []).getD j 0 = 0 := by
  by_cases hi : i < pts.length
  · rw [gdm_row pts i hi]
    exact getD_out_of_range _ _ j (by simpa using hj)
  · exact gdm_entry_zero_left pts i j (by omega)

/-! ## Claim theorems for src/main2.py -/

/-- C1 counterexample.  On the no-solution result, the scheduling script's
main prints a "No feasible schedule found." message, but the vehicle-routing
script's main emits nothing beyond the initial data dump: `main` in
src/main.py has `if solution: print_solution(...)` with no else branch, so
no absence message is ever printed there, refuting the claim's assertion
about the vehicle-routing script. -/
theorem C1_vrp_silent_counterexample :
    ConsoleEvent.noFeasibleScheduleMsg ∈ scheduler_main none ∧
    ConsoleEvent.noFeasibleScheduleMsg ∉ vrp_main none ∧
    vrp_main none = [ConsoleEvent.dataPrinted] := by
  decide

/-- C1 (amended): when the external solver reports that no feasible solution
exists, the scheduling script's main reports this absence with a plain
console message ("No feasible schedule found."), while the vehicle-routing
script's main silently skips the solution printout and emits only the data
dump that precedes solving. -/
theorem C1_absence_reporting :
    scheduler_main none = [ConsoleEvent.noFeasibleScheduleMsg] ∧
    scheduler_main (scheduler_solve false) = [ConsoleEvent.noFeasibleScheduleMsg] ∧
    vrp_main none = [ConsoleEvent.dataPrinted] ∧
    ConsoleEvent.solutionPrinted ∉ vrp_main none ∧
    ConsoleEvent.noFeasibleScheduleMsg ∉ vrp_main none := by
  decide

/-- C2: `StaffScheduler.add_constraints` adds the rest-time constraint
`vars[(s,d,shift1)] + vars[(s,d+1,shift2)] <= 1` exactly for staff `s` below
`num_staff`, day `d` below `num_days - 1`, and non-OFF shifts whose gap
`(start2 - end1 + 24*60) % (24*60)` is strictly below `11*60` minutes; no
pairwise constraint appears when the gap is at least 11 hours or a shift is
OFF. -/
theorem C2_rest_constraints_characterization (num_staff num_days : ℕ)
    (s1 d1 : ℕ) (sh1 : Shift) (s2 d2 : ℕ) (sh2 : Shift) :
    ((s1, d1, sh1), (s2, d2, sh2)) ∈ rest_constraints num_staff num_days ↔
      s1 < num_staff ∧ d1 < num_days - 1 ∧ s2 = s1 ∧ d2 = d1 + 1 ∧
        sh1 ≠ Shift.OFF ∧ sh2 ≠ Shift.OFF ∧ restGap sh1 sh2 < 11 * 60 := by
  constructor
  · intro h
    simp only [rest_constraints, List.mem_flatMap, List.mem_range] at h
    obtain ⟨s, hs, d, hd, a, _, b, _, hmem⟩ := h
    by_cases hc : a ≠ Shift.OFF ∧ b ≠ Shift.OFF ∧ restGap a b < 11 * 60
    · rw [if_pos hc] at hmem
      simp only [List.mem_singleton, Prod.mk.injEq] at hmem
      obtain ⟨⟨h1, h2, h3⟩, h4, h5, h6⟩ := hmem
      subst h1; subst h2; subst h3; subst h4; subst h5; subst h6
      exact ⟨hs, hd, rfl, rfl, hc.1, hc.2.1, hc.2.2⟩
    · rw [if_neg hc] at hmem
      cases hmem
  · rintro ⟨h1, h2, he1, he2, h5, h6, h7⟩
    simp only [rest_constraints, List.mem_flatMap, List.mem_range]
    refine ⟨s1, h1, d1, h2, sh1, mem_shiftOrder sh1, sh2, mem_shiftOrder sh2, ?_⟩
    rw [if_pos ⟨h5, h6, h7⟩]
    simp [he1, he2]

/-- C7: the coverage constraints of `StaffScheduler.add_constraints` are
exactly one per day `d < num_days` and non-OFF shift (A, B, C, D), none for
OFF, and each one is satisfied precisely when at least one staff member below
`num_staff` is assigned that shift on that day. -/
theorem C7_coverage_characterization (num_staff num_days : ℕ)
    (x : ℕ → ℕ → Shift → Bool) :
    (∀ d sh, (d, sh) ∈ coverage_constraints num_days ↔
      d < num_days ∧ sh ≠ Shift.OFF) ∧
    (∀ d sh, coverage_sat num_staff x (d, sh) ↔
      ∃ s, s < num_staff ∧ x s d sh = true) := by
  constructor
  · intro d sh
    constructor
    · intro h
      simp only [coverage_constraints, List.mem_flatMap, List.mem_range] at h
      obtain ⟨d0, hd0, sh0, _, hmem⟩ := h
      by_cases hc : sh0 ≠ Shift.OFF
      · rw [if_pos hc] at hmem
        simp only [List.mem_singleton, Prod.mk.injEq] at hmem
        obtain ⟨rfl, rfl⟩ := hmem
        exact ⟨hd0, hc⟩
      · rw [if_neg hc] at hmem
        cases hmem
    · rintro ⟨hd, hsh⟩
      simp only [coverage_constraints, List.mem_flatMap, List.mem_range]
      refine ⟨d, hd, sh, mem_shiftOrder sh, ?_⟩
      rw [if_pos hsh]
      simp
  · intro d sh
    unfold coverage_sat
    rw [boolsum_ge_one_iff]
    simp [List.mem_range]

/-- C8: `StaffScheduler.create_variables` creates exactly one Boolean
decision variable per (staff, day, shift) triple — `num_staff * num_days * 5`
keys in all, with no duplicate key, and `(s, d, sh)` is a key exactly when
`s < num_staff` and `d < num_days` — over the five labels A, B, C, D, OFF
fixed in `__init__` together with their time windows and the desired
staffing targets. -/
theorem C8_create_variables_characterization (num_staff num_days : ℕ) :
    (create_variables num_staff num_days).length = num_staff * num_days * 5 ∧
    (create_variables num_staff num_days).Nodup ∧
    (∀ (s d : ℕ) (sh : Shift),
      (s, d, sh) ∈ create_variables num_staff num_days ↔
        s < num_staff ∧ d < num_days) ∧
    shiftOrder = [Shift.A, Shift.B, Shift.C, Shift.D, Shift.OFF] ∧
    shifts Shift.A = ⟨8, 0, 15, 30⟩ ∧
    shifts Shift.B = ⟨13, 0, 21, 0⟩ ∧
    shifts Shift.C = ⟨14, 30, 22, 0⟩ ∧
    shifts Shift.D = ⟨16, 0, 23, 30⟩ ∧
    shifts Shift.OFF = ⟨-1, -1, -1, -1⟩ ∧
    desired_staff_per_shift = [(Shift.A, 10), (Shift.B, 8), (Shift.C, 9), (Shift.D, 5)] := by
  refine ⟨?_, ?_, ?_, rfl, rfl, rfl, rfl, rfl, rfl, rfl⟩
  · rw [create_variables_eq_product, List.length_product, List.length_product]
    simp [shiftOrder, Nat.mul_assoc]
  · rw [create_variables_eq_product]
    exact (List.nodup_range _).product ((List.nodup_range _).product nodup_shiftOrder)
  · intro s d sh
    rw [create_variables_eq_product]
    simp [List.mem_product, mem_shiftOrder]

/-! ## Claim theorems for src/main.py -/

/-- C3: for every list of 2-D points, `get_distance_matrix` returns a square
matrix with one row per point and one entry per point in each row, and the
matrix is symmetric (entry `[i][j]` equals entry `[j][i]`), because
`euclidean_distance` is commutative in its two arguments. -/
theorem C3_distance_matrix_symmetric (pts : List (ℝ × ℝ)) :
    (get_distance_matrix pts).length = pts.length ∧
    (∀ i, i < pts.length → ((get_distance_matrix pts).getD i []).length = pts.length) ∧
    (∀ i j, ((get_distance_matrix pts).getD i []).getD j 0 =
      ((get_distance_matrix pts).getD j []).getD i 0) := by
  refine ⟨gdm_length pts, ?_, ?_⟩
  · intro i hi
    rw [gdm_row pts i hi]
    simp
  · intro i j
    by_cases hi : i < pts.length <;> by_cases hj : j < pts.length
    · rw [gdm_entry pts i j hi hj, gdm_entry pts j i hj hi, euclidean_distance_comm]
    · rw [gdm_entry_zero_right pts i j (by omega), gdm_entry_zero_left pts j i (by omega)]
    · rw [gdm_entry_zero_left pts i j (by omega), gdm_entry_zero_right pts j i (by omega)]
    · rw [gdm_entry_zero_left pts i j (by omega), gdm_entry_zero_left pts j i (by omega)]

/-- C3 witness: the row-length part at the concrete point list `pts2` and
index 0. -/
theorem C3_distance_matrix_symmetric_witness :
    0 < pts2.length ∧ ((get_distance_matrix pts2).getD 0 []).length = pts2.length :=
  ⟨by simp [pts2], (C3_distance_matrix_symmetric pts2).2.1 0 (by simp [pts2])⟩

/-- C4: in the dictionary returned by `create_data_model`, the demands list,
the locations list and every row of the distance matrix have 37 entries
(30 staff + 1 depot + 6 vehicle starts), and the vehicle_capacities list has
length equal to the num_vehicles field, which is 6. -/
theorem C4_data_model_lengths (family : ℕ → PRNG) (st : RNGState) :
    (create_data_model family st).demands.length = 37 ∧
    (create_data_model family st).locations.length = 37 ∧
    (create_data_model family st).distance_matrix.length = 37 ∧
    (∀ i, i < 37 → ((create_data_model family st).distance_matrix.getD i []).length = 37) ∧
    (create_data_model family st).vehicle_capacities.length =
      (create_data_model family st).num_vehicles ∧
    (create_data_model family st).num_vehicles = 6 := by
  refine ⟨?_, cdm_locations_length family st, ?_, ?_, rfl, ?_⟩
  · rw [cdm_demands]
    simp
  · rw [cdm_matrix, gdm_length, cdm_locations_length]
  · intro i hi
    rw [cdm_matrix, gdm_row _ i (by rw [cdm_locations_length]; exact hi)]
    simp [cdm_locations_length]
  · rw [cdm_num_vehicles, drawCaps_fst_length]

/-- C4 witness: the row-length part at the concrete generator family and
state, row 0. -/
theorem C4_data_model_lengths_witness :
    0 < 37 ∧ ((create_data_model constFamily initState).distance_matrix.getD 0 []).length = 37 :=
  ⟨by decide, (C4_data_model_lengths constFamily initState).2.2.2.1 0 (by decide)⟩

/-- C5: the demand at the depot index 0 is 1 (not 0) and the demand at index
30 — the last staff location — is 0: `[1] * 30 + [0] + [0] * 6` assigns 1 to
indices 0..29 and 0 to indices 30..36, while the staff locations occupy
indices 1..30 of the locations list (index `i` holds the `(i-1)`-th drawn
staff location), so the nonzero demands sit one position before the staff
locations. -/
theorem C5_demand_misalignment (family : ℕ → PRNG) (st : RNGState) :
    (create_data_model family st).demands.getD (create_data_model family st).depot 0 = 1 ∧
    (create_data_model family st).demands.getD 30 0 = 0 ∧
    (∀ i, i < 30 → (create_data_model family st).demands.getD i 0 = 1) ∧
    (∀ i, 30 ≤ i → i < 37 → (create_data_model family st).demands.getD i 0 = 0) ∧
    (∀ i, 1 ≤ i → i ≤ 30 →
      (create_data_model family st).locations.getD i depot_location =
        ((drawPoints 30 (seedRNG family 3 st)).1).getD (i - 1) depot_location) := by
  refine ⟨?_, ?_, ?_, ?_, ?_⟩
  · rw [show (create_data_model family st).depot = 0 from rfl, cdm_demands]
    rfl
  · rw [cdm_demands]
    rfl
  · intro i hi
    rw [cdm_demands]
    interval_cases i <;> rfl
  · intro i h30 h37
    rw [cdm_demands]
    interval_cases i <;> rfl
  · intro i h1 h30
    rw [cdm_locations]
    obtain ⟨k, rfl⟩ : ∃ k, i = k + 1 := ⟨i - 1, by omega⟩
    rw [List.cons_append, List.getD_cons_succ,
      getD_append_left _ _ _ k (by rw [drawPoints_fst_length]; omega)]
    simp

/-- C5 witness: concrete instances — demand 1 at index 5, demand 0 at index
33, and the location at index 2 is the staff location drawn second. -/
theorem C5_demand_misalignment_witness :
    (create_data_model constFamily initState).demands.getD 5 0 = 1 ∧
    (create_data_model constFamily initState).demands.getD 33 0 = 0 ∧
    (create_data_model constFamily initState).locations.getD 2 depot_location =
      ((drawPoints 30 (seedRNG constFamily 3 initState)).1).getD 1 depot_location :=
  ⟨(C5_demand_misalignment constFamily initState).2.2.1 5 (by decide),
    (C5_demand_misalignment constFamily initState).2.2.2.1 33 (by decide) (by decide),
    (C5_demand_misalignment constFamily initState).2.2.2.2 2 (by decide) (by decide)⟩

/-- C6: every entry `[i][j]` of the distance matrix built by
`create_data_model` is the Euclidean distance between locations `i` and `j`,
scaled by 10000 and truncated to an integer (the value is nonnegative, so
`int(...)` is the floor). -/
theorem C6_scaled_euclidean_entries (family : ℕ → PRNG) (st : RNGState)
    (i j : ℕ) (hi : i < 37) (hj : j < 37) :
    ((create_data_model family st).distance_matrix.getD i []).getD j 0 =
      ⌊Real.sqrt ((((create_data_model family st).locations.getD i depot_location).1 -
            ((create_data_model family st).locations.getD j depot_location).1) ^ 2 +
          (((create_data_model family st).locations.getD i depot_location).2 -
            ((create_data_model family st).locations.getD j depot_location).2) ^ 2) *
        10000⌋ := by
  rw [cdm_matrix,
    gdm_entry _ i j (by rw [cdm_locations_length]; exact hi)
      (by rw [cdm_locations_length]; exact hj)]
  rfl

/-- C6 witness: the entry formula at the concrete generator family and
state, indices 0 and 1. -/
theorem C6_scaled_euclidean_entries_witness :
    ((create_data_model constFamily initState).distance_matrix.getD 0 []).getD 1 0 =
      ⌊Real.sqrt ((((create_data_model constFamily initState).locations.getD 0 depot_location).1 -
            ((create_data_model constFamily initState).locations.getD 1 depot_location).1) ^ 2 +
          (((create_data_model constFamily initState).locations.getD 0 depot_location).2 -
            ((create_data_model constFamily initState).locations.getD 1 depot_location).2) ^ 2) *
        10000⌋ :=
  C6_scaled_euclidean_entries constFamily initState 0 1 (by decide) (by decide)

/-- C9: the data model has exactly one depot index, 0, whose location is the
fixed depot coordinate; `vehicle_starts` is `[31, ..., 36]`, the indices of
the last 6 of the 37 locations (which are the 6 drawn vehicle starting
points); and `vehicle_ends` is six copies of the depot index 0. -/
theorem C9_depot_starts_ends (family : ℕ → PRNG) (st : RNGState) :
    (create_data_model family st).depot = 0 ∧
    (create_data_model family st).locations.getD 0 depot_location = depot_location ∧
    (create_data_model family st).locations.length = 37 ∧
    (create_data_model family st).vehicle_starts = [31, 32, 33, 34, 35, 36] ∧
    (create_data_model family st).locations.drop 31 =
      (drawPoints 6 (drawPoints 30 (seedRNG family 3 st)).2).1 ∧
    (create_data_model family st).vehicle_ends = List.replicate 6 0 ∧
    (create_data_model family st).vehicle_ends =
      List.replicate 6 (create_data_model family st).depot := by
  refine ⟨rfl, by rw [cdm_locations]; rfl, cdm_locations_length family st,
    cdm_vehicle_starts family st, ?_, rfl, rfl⟩
  rw [cdm_locations]
  exact drop_cons_append _ _ _ 30 (drawPoints_fst_length 30 _)

/-- C10: `create_data_model` is deterministic.  It calls `random.seed(3)`
before any draw, which discards the incoming generator state; hence two
invocations from arbitrary (possibly different) generator states return
identical data models. -/
theorem C10_deterministic (family : ℕ → PRNG) (st1 st2 : RNGState) :
    create_data_model family st1 = create_data_model family st2 := rfl
